import Mathlib

set_option maxHeartbeats 1000000

/- Shallow embedding of the pull-request code-review agent.

   The embedding covers:
   - src/tools/bash_tool.py : the command sandbox (BashTools, cli_tool, get_tools);
   - src/agent/agent.py     : PR-URL parsing (_parse_pr_url), the stage pipeline
                              (_run_async_impl) and final-result assembly
                              (_generate_final_result);
   - src/agent/main.py      : request normalization (validate_review_criteria,
                              validate_severity_threshold) and the endpoint-side
                              result post-processing (run_code_review_agent).

   Reasoning-worker (LLM sub-agent) invocations are external, nondeterministic
   collaborators; they are modelled by an Oracle recording, for each delegated
   stage, which context-store key (if any) the worker wrote.  Machine strings are
   Lean Strings (sequences of unicode code points, matching Python str); Python
   ints are Lean Int. -/

/- ### §1 Command sandbox — src/tools/bash_tool.py -/

/-- Result of one child-process execution: exit status plus captured streams
(already decoded from UTF-8, as `bash_tool.py` does with `.decode("utf-8")`). -/
structure ProcResult where
  returncode : Int
  stdout : String
  stderr : String
deriving DecidableEq

/-- Configuration of `BashTools.__init__` (src/tools/bash_tool.py lines 10-26). -/
structure BashToolsConfig where
  allowed_commands : List String := []
  truncate_length : Option Int := none
  working_dir : Option String := none

/-- The module-level truncation marker `truncate_str` (bash_tool.py line 7). -/
def truncate_str : String := "<truncated>"

/-- One hexadecimal digit character, lowercase, as CPython prints in `\xNN`
escapes. -/
def hexDigitChar (n : Nat) : Char :=
  if n < 10 then Char.ofNat (48 + n) else Char.ofNat (87 + n)

/-- CPython `repr` of a single character inside a string literal quoted by `q`:
backslash and the quote are escaped, newline/carriage-return/tab get their
two-character escapes, other control characters become `\xNN`, anything else is
kept verbatim. -/
def pyCharRepr (q c : Char) : String :=
  if c = Char.ofNat 92 then String.mk [Char.ofNat 92, Char.ofNat 92]
  else if c = q then String.mk [Char.ofNat 92, q]
  else if c = Char.ofNat 10 then String.mk [Char.ofNat 92, Char.ofNat 110]
  else if c = Char.ofNat 13 then String.mk [Char.ofNat 92, Char.ofNat 114]
  else if c = Char.ofNat 9 then String.mk [Char.ofNat 92, Char.ofNat 116]
  else if c.toNat < 32 ∨ c.toNat = 127 then
    String.mk [Char.ofNat 92, Char.ofNat 120,
      hexDigitChar (c.toNat / 16 % 16), hexDigitChar (c.toNat % 16)]
  else String.mk [c]

/-- CPython `repr` of a string: single-quoted, unless the string contains a
single quote and no double quote, in which case double-quoted. -/
def pyStrRepr (s : String) : String :=
  let hasSingle := s.toList.contains (Char.ofNat 39)
  let hasDouble := s.toList.contains (Char.ofNat 34)
  let q := if hasSingle && !hasDouble then Char.ofNat 34 else Char.ofNat 39
  String.mk [q] ++ String.join (s.toList.map (pyCharRepr q)) ++ String.mk [q]

/-- CPython `repr` of a `list[str]`, which is what the f-string `{args}` in
`cli_tool` interpolates. -/
def pyListRepr (l : List String) : String :=
  "[" ++ String.intercalate ", " (l.map pyStrRepr) ++ "]"

/-- The stop index of the Python slice `output[:n]` on a string of length
`len`: a non-negative `n` is used directly, a negative `n` counts back from the
end (natural subtraction already clamps at 0). -/
def pyStop (len : Nat) (n : Int) : Nat :=
  if 0 ≤ n then n.toNat else len - (-n).toNat

/-- The body of the closure `cli_tool` built by
`BashTools._create_runtime_cli_tool` (bash_tool.py lines 33-52), as a pure
function of the finished child-process result `p`:
on non-zero exit it returns the error string built from the command name, the
Python repr of the argument list, the exit code and the captured stderr;
on success it returns stdout, truncated to `truncate_length` characters with
the marker appended when a truthy limit is configured and exceeded
(`if self.truncate_length and len(output) > self.truncate_length`). -/
def cli_tool (cfg : BashToolsConfig) (command : String) (args : List String)
    (p : ProcResult) : String :=
  if p.returncode ≠ 0 then
    "Error: Command " ++ command ++ " " ++ pyListRepr args
      ++ " failed with return code " ++ toString p.returncode
      ++ " and stderr: " ++ p.stderr
  else
    let output := p.stdout
    match cfg.truncate_length with
    | none => output
    | some n =>
      if n ≠ 0 ∧ (output.length : Int) > n then
        String.mk (output.toList.take (pyStop output.length n)) ++ truncate_str
      else output

/-- A sandbox capability: the fixed executable name it is bound to, plus its
invocation behaviour (a function of the arguments and of the child-process
outcome). -/
structure CliTool where
  command : String
  run : List String → ProcResult → String

/-- `BashTools._create_runtime_cli_tool` (bash_tool.py lines 28-65): builds the
capability for one fixed command name. -/
def create_runtime_cli_tool (cfg : BashToolsConfig) (command : String) : CliTool :=
  ⟨command, fun args p => cli_tool cfg command args p⟩

/-- `BashTools.get_tools` (bash_tool.py lines 67-74): one capability per entry
of `allowed_commands`, in list order. -/
def get_tools (cfg : BashToolsConfig) : List CliTool :=
  cfg.allowed_commands.map (create_runtime_cli_tool cfg)

/- ### §2 PR-URL parsing — CodeReviewAgent._parse_pr_url (agent.py 199-209)

   The source uses `re.match` with the pattern
   `https://github\.com/([^/]+)/([^/]+)/pull/(\d+)`.
   `re.match` anchors at the start only (a prefix match).  Because `[^/]+`
   cannot cross a `/`, greedy matching is deterministic: each group is the
   maximal run of non-slash characters before the next literal `/`, and the
   final group is the maximal leading run of digits.  The embedding below
   implements exactly that deterministic reading on `List Char`. -/

/-- The character `/`. -/
def slashChar : Char := Char.ofNat 47

/-- Boolean predicate for `[^/]`. -/
def notSlash (c : Char) : Bool := c != slashChar

/-- Consume an exact literal: `dropLit p s` returns the remainder of `s` after
the prefix `p`, or `none` when `s` does not start with `p`. -/
def dropLit : List Char → List Char → Option (List Char)
  | [], s => some s
  | _ :: _, [] => none
  | a :: ps, b :: ss => if a = b then dropLit ps ss else none

/-- Match `([^/]+)/`: the maximal nonempty run of non-slash characters followed
by one consumed separator character (which `dropWhile` guarantees is `/`).
Returns the captured run and the remainder after the separator. -/
def parseSeg (s : List Char) : Option (List Char × List Char) :=
  let t := s.takeWhile notSlash
  let r := s.dropWhile notSlash
  if t.isEmpty then none
  else
    match r with
    | [] => none
    | _ :: r2 => some (t, r2)

/-- The literal prefix `https://github.com/` of the source pattern. -/
def githubLit : List Char := "https://github.com/".toList

/-- The literal `pull/` of the source pattern. -/
def pullLit : List Char := "pull/".toList

/-- The literal `https://` used by the spec-side generic-host pattern. -/
def httpsLit : List Char := "https://".toList

/-- `PRReference = {owner, repo, pr_number}` as produced by `_parse_pr_url`
(agent.py lines 204-208); `pr_number` is kept as the captured digit string,
exactly as `match.group(3)` is. -/
structure PRReference where
  owner : String
  repo : String
  pr_number : String
deriving DecidableEq

/-- `CodeReviewAgent._parse_pr_url` on the character list of the URL:
`re.match(r"https://github\.com/([^/]+)/([^/]+)/pull/(\d+)", url)`, reading the
two path groups, the `pull/` literal and the leading digit run, anchored at
the start of the string and ignoring any trailing characters. -/
def parsePRUrlChars (s : List Char) : Option PRReference :=
  (dropLit githubLit s).bind fun s1 =>
  (parseSeg s1).bind fun os =>
  (parseSeg os.2).bind fun rs =>
  (dropLit pullLit rs.2).bind fun s4 =>
    let num := s4.takeWhile Char.isDigit
    if num.isEmpty then none
    else some ⟨String.mk os.1, String.mk rs.1, String.mk num⟩

/-- `CodeReviewAgent._parse_pr_url` (agent.py lines 199-209). -/
def parse_pr_url (url : String) : Option PRReference :=
  parsePRUrlChars url.toList

/-- Shared tail of the PR-URL patterns after the host part:
`<owner>/<repo>/pull/<digits>` as a prefix match. -/
def matchesTail (s1 : List Char) : Bool :=
  (((parseSeg s1).bind fun os =>
    (parseSeg os.2).bind fun rs =>
    (dropLit pullLit rs.2).map fun s4 =>
      !(s4.takeWhile Char.isDigit).isEmpty).getD false)

/-- The code's fixed pattern `https://github.com/<owner>/<repo>/pull/<digits>`
as a Boolean prefix matcher. -/
def matchesGithubPRPattern (s : List Char) : Bool :=
  ((dropLit githubLit s).map matchesTail).getD false

/-- Modelled from the spec: the claim's pattern
`https://<host>/<owner>/<repo>/pull/<digits>` with an arbitrary nonempty
slash-free host component, as a Boolean prefix matcher.  This follows the words
of the claim (and of spec §4.4/§6), to be compared with the code's
github.com-only pattern. -/
def matchesGenericPRPattern (s : List Char) : Bool :=
  ((dropLit httpsLit s).bind fun s0 =>
    (parseSeg s0).map fun hs => matchesTail hs.2).getD false

/- ### §3 Request normalization — src/agent/main.py -/

/-- The five known review-criteria flags (main.py lines 21-27), all `true` by
default. -/
structure ReviewCriteria where
  code_quality : Bool := true
  security : Bool := true
  performance : Bool := true
  style : Bool := true
  documentation : Bool := true
deriving DecidableEq

/-- The `default_criteria` dict of `validate_review_criteria`. -/
def default_criteria : ReviewCriteria := {}

/-- The five known keys, in the order `default_criteria` lists them. -/
def knownCriteriaKeys : List String :=
  ["code_quality", "security", "performance", "style", "documentation"]

/-- One iteration of the loop in `validate_review_criteria` (main.py 33-35):
`if key in default_criteria: default_criteria[key] = bool(value)` — a known key
overwrites its field, an unknown key is ignored. -/
def setCriterion (acc : ReviewCriteria) (k : String) (v : Bool) : ReviewCriteria :=
  if k = "code_quality" then { acc with code_quality := v }
  else if k = "security" then { acc with security := v }
  else if k = "performance" then { acc with performance := v }
  else if k = "style" then { acc with style := v }
  else if k = "documentation" then { acc with documentation := v }
  else acc

/-- Read a field of the normalized mapping by key name; `none` for the keys the
produced dict does not contain.  This is the observation "which keys the
returned dict has, and with which values". -/
def criterionValue (r : ReviewCriteria) (k : String) : Option Bool :=
  if k = "code_quality" then some r.code_quality
  else if k = "security" then some r.security
  else if k = "performance" then some r.performance
  else if k = "style" then some r.style
  else if k = "documentation" then some r.documentation
  else none

/-- `validate_review_criteria` (main.py lines 19-37).  The caller's mapping is
taken as its item list in iteration order, values already coerced by `bool()`.
An empty (or absent, passed as `{}`) mapping returns the defaults verbatim. -/
def validate_review_criteria (criteria : List (String × Bool)) : ReviewCriteria :=
  if criteria = [] then default_criteria
  else criteria.foldl (fun acc kv => setCriterion acc kv.1 kv.2) default_criteria

/-- The `valid_thresholds` list of `validate_severity_threshold` (main.py 41). -/
def valid_thresholds : List String := ["low", "medium", "high", "critical"]

/-- `validate_severity_threshold` (main.py lines 39-44). -/
def validate_severity_threshold (threshold : String) : String :=
  if threshold ∈ valid_thresholds then threshold else "low"

/- ### §4 Result schema — agent.py lines 28-60 -/

/-- `ReviewComment` (agent.py lines 28-34). -/
structure ReviewComment where
  file_path : String
  line_number : Int
  comment : String
  severity : String
  category : String
deriving DecidableEq

/-- `Issue` (agent.py lines 36-43). -/
structure Issue where
  category : String
  severity : String
  description : String
  file_path : String
  line_number : Option Int := none
  suggestion : Option String := none
deriving DecidableEq

/-- `ReviewResult` (agent.py lines 53-60): the pipeline's terminal artifact and
the externally returned payload. -/
structure ReviewResult where
  review_summary : String
  comments_added : List ReviewComment
  issues_found : List Issue
  approval_recommendation : String
  success : Bool
  error : Option String := none
deriving DecidableEq

/- ### §5 Stage pipeline — CodeReviewAgent._run_async_impl (agent.py 74-197) -/

/-- The pipeline stages that can execute, in pipeline order.  A stage appears
in a run's trace exactly when the corresponding block of `_run_async_impl`
executed. -/
inductive Stage
  | validating
  | fetching
  | analyzing
  | generating
  | posting
  | finalizing
deriving DecidableEq

/-- The session-state keys `_run_async_impl` reads and writes.  The first two
keys come from the request; the rest start absent and are written by stages. -/
structure SessionState where
  pull_request_url : Option String := none
  post_comments : Bool := false
  pr_details : Option String := none
  code_analysis : Option String := none
  raw_review_comments : Option String := none
  review_comments : Option ReviewResult := none
  post_result : Option String := none
  final_result : Option ReviewResult := none
deriving DecidableEq

/-- The external reasoning workers, as the orchestrator observes them: for each
delegated stage, the value (if any) the worker wrote under its `output_key`.
`structuredOut` is the schema-validated `ReviewResult` the structured-output
corrector wrote under `review_comments`; `none` means the key was not written
(worker failure or validation failure). -/
structure Oracle where
  fetchOut : Option String := none
  analyzeOut : Option String := none
  rawOut : Option String := none
  structuredOut : Option ReviewResult := none
  postOut : Option String := none

/-- A sub-agent run with an `output_key` overwrites the key when it produced
output and leaves the old value when it did not. -/
def overrideKey (newVal old : Option α) : Option α :=
  match newVal with
  | some v => some v
  | none => old

/-- The event text when `pull_request_url` is missing or empty (agent.py 80). -/
def missingUrlMsg : String :=
  "No pull_request_url found in session state. Please provide a \x27pull_request_url\x27 in the session state."

/-- The diagnostic event text on URL parse failure (agent.py 97). -/
def invalidUrlMsg : String :=
  "Invalid pull request URL format. Expected format: https://github.com/owner/repo/pull/123"

/-- Progress event before FETCHING (agent.py 107). -/
def fetchStartMsg : String := "🔍 Fetching pull request details..."

/-- Gate-failure event after FETCHING (agent.py 119). -/
def fetchFailMsg : String := "Failed to fetch pull request details."

/-- Progress event before ANALYZING (agent.py 129). -/
def analyzeStartMsg : String := "🔍 Analyzing code changes..."

/-- Gate-failure event after ANALYZING (agent.py 141). -/
def analyzeFailMsg : String := "Failed to analyze code changes."

/-- Progress event before GENERATING (agent.py 151). -/
def generateStartMsg : String := "💬 Generating review comments..."

/-- Gate-failure event after GENERATING/STRUCTURING (agent.py 163). -/
def generateFailMsg : String := "Failed to generate review comments."

/-- Progress event before POSTING (agent.py 175). -/
def postStartMsg : String := "📝 Posting review comments to pull request..."

/-- Event emitted by `_generate_final_result` (agent.py 397). -/
def finalDoneMsg : String := "Final result generated"

/-- The fallback of `_generate_final_result` (agent.py lines 385-392),
substituted when no structured `review_comments` value is available at
FINALIZING. -/
def agentFallbackResult : ReviewResult :=
  { review_summary := "Code review completed"
    comments_added := []
    issues_found := []
    approval_recommendation := "comment"
    success := true
    error := none }

/-- `CodeReviewAgent._generate_final_result` (agent.py lines 375-392) as a
function of the `review_comments` key: the validated structured result verbatim
when present (a schema-validated `ReviewResult` dict is nonempty, hence truthy),
the fixed fallback otherwise. -/
def generate_final_result (review_comments : Option ReviewResult) : ReviewResult :=
  match review_comments with
  | some r => r
  | none => agentFallbackResult

/-- The final summary event of `_run_async_impl` (agent.py lines 188-197). -/
def finalSummaryMsg (fr : ReviewResult) : String :=
  (if fr.success then "✅ Code review completed successfully!" else "❌ Code review failed.")
    ++ "\n\nSummary: " ++ fr.review_summary

/-- Outcome of one pipeline run: the final session state, the trace of stages
that executed, and the texts of the events the orchestrator itself emitted
(events yielded from inside delegated sub-agents are external and omitted). -/
structure RunResult where
  state : SessionState
  trace : List Stage
  events : List String
deriving DecidableEq

/-- `CodeReviewAgent._run_async_impl` (agent.py lines 74-197), with the
delegated workers abstracted by the `Oracle`:
missing or empty (falsy) URL → early return; URL that fails `_parse_pr_url` →
diagnostic event and halt; then the FETCHING / ANALYZING / GENERATING stages
each run their worker and gate on their context key, halting on absence; the
structured-output corrector runs only when `raw_review_comments` was written;
POSTING runs only when `post_comments` is set and is never gated; FINALIZING
always writes `final_result` and the closing summary event is emitted. -/
def run_async_impl (st : SessionState) (o : Oracle) : RunResult :=
  match st.pull_request_url with
  | none => ⟨st, [], [missingUrlMsg]⟩
  | some url =>
    if url = "" then ⟨st, [], [missingUrlMsg]⟩
    else
      match parse_pr_url url with
      | none => ⟨st, [Stage.validating], [invalidUrlMsg]⟩
      | some _ =>
        let st1 : SessionState := { st with pr_details := overrideKey o.fetchOut st.pr_details }
        if st1.pr_details.isNone then
          ⟨st1, [Stage.validating, Stage.fetching], [fetchStartMsg, fetchFailMsg]⟩
        else
          let st2 : SessionState :=
            { st1 with code_analysis := overrideKey o.analyzeOut st1.code_analysis }
          if st2.code_analysis.isNone then
            ⟨st2, [Stage.validating, Stage.fetching, Stage.analyzing],
              [fetchStartMsg, analyzeStartMsg, analyzeFailMsg]⟩
          else
            let st3a : SessionState :=
              { st2 with raw_review_comments := overrideKey o.rawOut st2.raw_review_comments }
            let st3 : SessionState :=
              if st3a.raw_review_comments.isSome then
                { st3a with review_comments := overrideKey o.structuredOut st3a.review_comments }
              else st3a
            if st3.review_comments.isNone then
              ⟨st3, [Stage.validating, Stage.fetching, Stage.analyzing, Stage.generating],
                [fetchStartMsg, analyzeStartMsg, generateStartMsg, generateFailMsg]⟩
            else
              let st4 : SessionState :=
                if st.post_comments then
                  { st3 with post_result := overrideKey o.postOut st3.post_result }
                else st3
              let fr : ReviewResult := generate_final_result st4.review_comments
              let st5 : SessionState := { st4 with final_result := some fr }
              ⟨st5,
                [Stage.validating, Stage.fetching, Stage.analyzing, Stage.generating]
                  ++ (if st.post_comments then [Stage.posting] else []) ++ [Stage.finalizing],
                [fetchStartMsg, analyzeStartMsg, generateStartMsg]
                  ++ (if st.post_comments then [postStartMsg] else [])
                  ++ [finalDoneMsg, finalSummaryMsg fr]⟩

/-- The fallback dict of `run_code_review_agent` (main.py lines 90-97),
returned to the caller when the run left no `final_result` in session state. -/
def mainFallbackResult : ReviewResult :=
  { review_summary := "Failed to complete review"
    comments_added := []
    issues_found := []
    approval_recommendation := "comment"
    success := false
    error := some "No result generated" }

/-- `run_code_review_agent` (main.py lines 46-97) as a function of the run:
the session's `final_result` when the run set one (a dict with its required
fields is nonempty, hence truthy), the endpoint fallback otherwise. -/
def run_code_review_agent (st : SessionState) (o : Oracle) : ReviewResult :=
  match (run_async_impl st o).state.final_result with
  | some fr => fr
  | none => mainFallbackResult

/- ### §6 Helper lemmas -/

theorem overrideKey_some (v : α) (old : Option α) : overrideKey (some v) old = some v := rfl

theorem overrideKey_none (old : Option α) : overrideKey none old = old := rfl

theorem setCriterion_not_known (acc : ReviewCriteria) (k : String) (v : Bool)
    (h : k ∉ knownCriteriaKeys) : setCriterion acc k v = acc := by
  simp only [knownCriteriaKeys, List.mem_cons, List.not_mem_nil, or_false, not_or] at h
  obtain ⟨h1, h2, h3, h4, h5⟩ := h
  simp [setCriterion, h1, h2, h3, h4, h5]

theorem criterionValue_setCriterion_ne (acc : ReviewCriteria) (kOther k : String) (v : Bool)
    (h : k ≠ kOther) :
    criterionValue (setCriterion acc kOther v) k = criterionValue acc k := by
  unfold setCriterion criterionValue
  split_ifs <;> simp_all

theorem criterionValue_foldl_not_mem (c : List (String × Bool)) (acc : ReviewCriteria)
    (k : String) (h : k ∉ c.map Prod.fst) :
    criterionValue (c.foldl (fun a kv => setCriterion a kv.1 kv.2) acc) k
      = criterionValue acc k := by
  induction c generalizing acc with
  | nil => rfl
  | cons kv t ih =>
    simp only [List.map_cons, List.mem_cons, not_or] at h
    simp only [List.foldl_cons]
    rw [ih _ h.2, criterionValue_setCriterion_ne _ _ _ _ h.1]

theorem foldl_setCriterion_filter (c : List (String × Bool)) (acc : ReviewCriteria) :
    (c.filter (fun kv => decide (kv.1 ∈ knownCriteriaKeys))).foldl
        (fun a kv => setCriterion a kv.1 kv.2) acc
      = c.foldl (fun a kv => setCriterion a kv.1 kv.2) acc := by
  induction c generalizing acc with
  | nil => rfl
  | cons kv t ih =>
    by_cases h : kv.1 ∈ knownCriteriaKeys
    · simp [List.filter_cons, h, ih]
    · simp [List.filter_cons, h, ih, setCriterion_not_known _ _ _ h]

theorem validate_review_criteria_eq_foldl (c : List (String × Bool)) :
    validate_review_criteria c
      = c.foldl (fun a kv => setCriterion a kv.1 kv.2) default_criteria := by
  cases c <;> simp [validate_review_criteria]

/- ### §7 Claim theorems -/

/-- Claim C3: for every sandbox configuration, allowed command and argument
list, an invocation whose child process exits with non-zero status returns (as
a value of the capability, never an exception — the embedded `cli_tool` is a
total function into `String`) the string
`Error: Command <name> <args> failed with return code <code> and stderr: <stderr>`
containing the command name, the Python repr of the argument list, the exit
code, and the captured stderr. -/
theorem cli_tool_nonzero_exit_error_string (cfg : BashToolsConfig) (command : String)
    (args : List String) (p : ProcResult) (h : p.returncode ≠ 0) :
    cli_tool cfg command args p =
      "Error: Command " ++ command ++ " " ++ pyListRepr args
        ++ " failed with return code " ++ toString p.returncode
        ++ " and stderr: " ++ p.stderr := by
  simp [cli_tool, h]

/-- Witness for C3 at a concrete failing invocation. -/
theorem cli_tool_nonzero_exit_error_string_witness :
    (1 : Int) ≠ 0 ∧
    cli_tool { allowed_commands := ["gh"] } "gh" ["pr", "view"]
        { returncode := 1, stdout := "", stderr := "boom" } =
      "Error: Command " ++ "gh" ++ " " ++ pyListRepr ["pr", "view"]
        ++ " failed with return code " ++ toString (1 : Int)
        ++ " and stderr: " ++ "boom" :=
  ⟨by decide,
   cli_tool_nonzero_exit_error_string { allowed_commands := ["gh"] } "gh" ["pr", "view"]
     { returncode := 1, stdout := "", stderr := "boom" } (by decide)⟩

/-- Claim C4: `get_tools` produces exactly one capability per name in
`allowed_commands`, in list order, each bound to that fixed executable name;
every constructed capability's command is in the allow-list, so a command
outside the list is never reachable as a capability. -/
theorem get_tools_exactly_allowed_commands (cfg : BashToolsConfig) :
    (get_tools cfg).map CliTool.command = cfg.allowed_commands ∧
    ((get_tools cfg).all fun t => cfg.allowed_commands.contains t.command) = true := by
  constructor
  · show List.map CliTool.command (List.map (create_runtime_cli_tool cfg) cfg.allowed_commands)
        = cfg.allowed_commands
    rw [List.map_map]
    exact List.map_id _
  · rw [List.all_eq_true]
    intro t ht
    simp only [get_tools, List.mem_map] at ht
    obtain ⟨c, hc, rfl⟩ := ht
    simpa [create_runtime_cli_tool] using hc

/-- Claim C5 counterexample: with `truncate_length = 0` configured and a
2-character output (longer than 0 characters), the claim predicts the first 0
characters followed by the marker, i.e. `<truncated>`, but the code's truthiness
guard (`if self.truncate_length and ...`) treats 0 as unset and returns the
output unmodified. -/
theorem cli_tool_truncate_zero_counterexample :
    cli_tool { allowed_commands := ["gh"], truncate_length := some 0 } "gh" []
        { returncode := 0, stdout := "ab", stderr := "" } = "ab" ∧
    ("ab" : String) ≠ String.mk ("ab".toList.take ((0 : Int).toNat)) ++ truncate_str := by
  constructor
  · rfl
  · decide

/-- Claim C5 as amended: for every positive configured `truncate_length` N, a
successful invocation returns the first N characters of stdout followed by the
marker when stdout is longer than N characters, and stdout unmodified when it
has at most N characters; with no configured limit the output is returned
unmodified (a configured limit of 0 is falsy and also leaves output
unmodified, per the counterexample). -/
theorem cli_tool_truncation (cfg : BashToolsConfig) (command : String)
    (args : List String) (p : ProcResult) (h0 : p.returncode = 0) :
    (∀ n : Int, cfg.truncate_length = some n → 1 ≤ n →
      (((p.stdout.length : Int) > n →
          cli_tool cfg command args p
            = String.mk (p.stdout.toList.take n.toNat) ++ truncate_str) ∧
       ((p.stdout.length : Int) ≤ n → cli_tool cfg command args p = p.stdout))) ∧
    (cfg.truncate_length = none → cli_tool cfg command args p = p.stdout) := by
  constructor
  · intro n hn h1
    have hne : n ≠ 0 := by omega
    constructor
    · intro hlong
      simp [cli_tool, h0, hn, hne, hlong, pyStop, show (0 : Int) ≤ n by omega]
    · intro hshort
      have hnot : ¬ ((p.stdout.length : Int) > n) := by omega
      simp [cli_tool, h0, hn, hnot]
  · intro hn
    simp [cli_tool, h0, hn]

/-- Witness for C5 (amended) at a concrete configuration: limit 3, a
5-character output is truncated to its first 3 characters plus the marker. -/
theorem cli_tool_truncation_witness :
    ((1 : Int) ≤ 3 ∧ ((("hello" : String).length : Int) > 3)) ∧
    cli_tool { allowed_commands := ["gh"], truncate_length := some 3 } "gh" []
        { returncode := 0, stdout := "hello", stderr := "" }
      = String.mk ("hello".toList.take ((3 : Int).toNat)) ++ truncate_str :=
  ⟨⟨by decide, by decide⟩,
   ((cli_tool_truncation { allowed_commands := ["gh"], truncate_length := some 3 } "gh" []
       { returncode := 0, stdout := "hello", stderr := "" } rfl).1 3 rfl
       (by decide)).1 (by decide)⟩

/-- Claim C6: in the FINALIZING step, a validated `ReviewResult` present under
the structured-output key becomes the pipeline's final result verbatim, no
field altered; otherwise the final result is the fixed fallback with generic
summary, empty comment and issue lists, recommendation `comment`, success
`true` and no error. -/
theorem generate_final_result_verbatim_or_fallback :
    (∀ r : ReviewResult, generate_final_result (some r) = r) ∧
    generate_final_result none = agentFallbackResult ∧
    agentFallbackResult =
      { review_summary := "Code review completed", comments_added := [],
        issues_found := [], approval_recommendation := "comment",
        success := true, error := none } :=
  ⟨fun _ => rfl, rfl, rfl⟩

/-- Claim C8: `validate_review_criteria` drops unknown keys (filtering the
input down to the known keys does not change the result), produces a mapping
defined on exactly the five known keys, defaults every known key that the
caller did not supply to `true`, and maps the empty mapping to all five keys
`true`. -/
theorem validate_review_criteria_normalizes (c : List (String × Bool)) :
    validate_review_criteria c
      = validate_review_criteria (c.filter fun kv => decide (kv.1 ∈ knownCriteriaKeys)) ∧
    (∀ k, (criterionValue (validate_review_criteria c) k).isSome ↔ k ∈ knownCriteriaKeys) ∧
    (∀ k, k ∈ knownCriteriaKeys → k ∉ c.map Prod.fst →
      criterionValue (validate_review_criteria c) k = some true) ∧
    validate_review_criteria [] =
      { code_quality := true, security := true, performance := true,
        style := true, documentation := true } := by
  refine ⟨?_, ?_, ?_, rfl⟩
  · rw [validate_review_criteria_eq_foldl, validate_review_criteria_eq_foldl,
      foldl_setCriterion_filter]
  · intro k
    unfold criterionValue knownCriteriaKeys
    split_ifs <;> simp_all
  · intro k hk hmem
    rw [validate_review_criteria_eq_foldl, criterionValue_foldl_not_mem _ _ _ hmem]
    simp only [knownCriteriaKeys, List.mem_cons, List.not_mem_nil, or_false] at hk
    rcases hk with rfl | rfl | rfl | rfl | rfl <;> rfl

/-- Witness for C8 at a concrete mapping: `security` set false, an unknown key
supplied; the missing known key `style` defaults to true and the output is
defined at `style`. -/
theorem validate_review_criteria_normalizes_witness :
    (criterionValue (validate_review_criteria [("security", false), ("typos", true)]) "style").isSome ∧
    criterionValue (validate_review_criteria [("security", false), ("typos", true)]) "style"
      = some true :=
  ⟨((validate_review_criteria_normalizes [("security", false), ("typos", true)]).2.1 "style").2
     (by decide),
   (validate_review_criteria_normalizes [("security", false), ("typos", true)]).2.2.1 "style"
     (by decide) (by decide)⟩

/-- Claim C9: `validate_severity_threshold` keeps every value inside
`{low, medium, high, critical}` unchanged and maps every value outside that set
to `low`. -/
theorem validate_severity_threshold_default (t : String) :
    (t ∈ valid_thresholds → validate_severity_threshold t = t) ∧
    (t ∉ valid_thresholds → validate_severity_threshold t = "low") := by
  unfold validate_severity_threshold
  split_ifs with h <;> simp_all

/-- Witness for C9: a valid value is kept, an invalid one defaults to `low`. -/
theorem validate_severity_threshold_default_witness :
    validate_severity_threshold "high" = "high" ∧
    validate_severity_threshold "urgent" = "low" :=
  ⟨(validate_severity_threshold_default "high").1 (by decide),
   (validate_severity_threshold_default "urgent").2 (by decide)⟩

/- ### §8 Parsing lemmas -/

theorem dropLit_self_append (p s : List Char) : dropLit p (p ++ s) = some s := by
  induction p with
  | nil => rfl
  | cons a t ih => simp [dropLit, ih]

theorem takeWhile_all_append (p : Char → Bool) (l m : List Char)
    (h : ∀ c ∈ l, p c = true) :
    (l ++ m).takeWhile p = l ++ m.takeWhile p := by
  induction l with
  | nil => simp
  | cons a t ih =>
    have ha : p a = true := h a (List.mem_cons_self a t)
    simp [List.takeWhile_cons, ha, ih fun c hc => h c (List.mem_cons_of_mem a hc)]

theorem dropWhile_all_append (p : Char → Bool) (l m : List Char)
    (h : ∀ c ∈ l, p c = true) :
    (l ++ m).dropWhile p = m.dropWhile p := by
  induction l with
  | nil => simp
  | cons a t ih =>
    have ha : p a = true := h a (List.mem_cons_self a t)
    simp [List.dropWhile_cons, ha, ih fun c hc => h c (List.mem_cons_of_mem a hc)]

theorem notSlash_slashChar : notSlash slashChar = false := by decide

theorem parseSeg_append (seg : List Char) (hne : seg ≠ [])
    (hfree : ∀ c ∈ seg, notSlash c = true) (tail : List Char) :
    parseSeg (seg ++ slashChar :: tail) = some (seg, tail) := by
  have ht : (seg ++ slashChar :: tail).takeWhile notSlash = seg := by
    rw [takeWhile_all_append _ _ _ hfree]
    simp [List.takeWhile_cons, notSlash_slashChar]
  have hd : (seg ++ slashChar :: tail).dropWhile notSlash = slashChar :: tail := by
    rw [dropWhile_all_append _ _ _ hfree]
    simp [List.dropWhile_cons, notSlash_slashChar]
  simp [parseSeg, ht, hd, hne]

theorem parse_isSome_eq_matches (s : List Char) :
    (parsePRUrlChars s).isSome = matchesGithubPRPattern s := by
  unfold parsePRUrlChars matchesGithubPRPattern matchesTail
  cases dropLit githubLit s with
  | none => rfl
  | some s1 =>
    simp only [Option.some_bind, Option.map_some', Option.getD_some]
    cases parseSeg s1 with
    | none => rfl
    | some os =>
      simp only [Option.some_bind]
      cases parseSeg os.2 with
      | none => rfl
      | some rs =>
        simp only [Option.some_bind]
        cases dropLit pullLit rs.2 with
        | none => rfl
        | some s4 =>
          cases s4 with
          | nil => simp
          | cons d t => by_cases h : d.isDigit <;> simp [List.takeWhile_cons, h]

theorem parsePRUrlChars_append (owner repo ds rest : List Char)
    (how : owner ≠ []) (hrp : repo ≠ [])
    (hof : ∀ c ∈ owner, notSlash c = true) (hrf : ∀ c ∈ repo, notSlash c = true)
    (hd : ds ≠ []) (hdd : ∀ c ∈ ds, c.isDigit = true) :
    parsePRUrlChars
        (githubLit ++ (owner ++ slashChar :: (repo ++ slashChar :: (pullLit ++ (ds ++ rest)))))
      = some ⟨String.mk owner, String.mk repo,
          String.mk ((ds ++ rest).takeWhile Char.isDigit)⟩ := by
  have h1 := parseSeg_append owner how hof
  have h2 := parseSeg_append repo hrp hrf
  have hnum : ((ds ++ rest).takeWhile Char.isDigit).isEmpty = false := by
    cases ds with
    | nil => exact absurd rfl hd
    | cons d t => simp [List.takeWhile_cons, hdd d (List.mem_cons_self d t)]
  simp only [parsePRUrlChars, dropLit_self_append, Option.some_bind, h1, h2]
  rw [hnum]
  rfl

/-- Claim C10: `_parse_pr_url` matches only a prefix of the input (`re.match`
is not anchored at the end): for every URL of the form
`https://github.com/<owner>/<repo>/pull/<digits><rest>` — owner and repo
nonempty and slash-free, at least one leading digit — parsing succeeds no
matter what `rest` is, and the extracted `pr_number` is the maximal leading run
of digits after `pull/`. -/
theorem parse_pr_url_matches_only_a_prefix (owner repo ds rest : String)
    (how : owner ≠ "") (hrp : repo ≠ "")
    (hof : ∀ c ∈ owner.toList, c ≠ slashChar) (hrf : ∀ c ∈ repo.toList, c ≠ slashChar)
    (hd : ds ≠ "") (hdd : ∀ c ∈ ds.toList, c.isDigit = true) :
    parse_pr_url ("https://github.com/" ++ owner ++ "/" ++ repo ++ "/pull/" ++ ds ++ rest)
      = some ⟨owner, repo, String.mk ((ds.toList ++ rest.toList).takeWhile Char.isDigit)⟩ := by
  have hof2 : ∀ c ∈ owner.toList, notSlash c = true := by
    intro c hc; simpa [notSlash] using hof c hc
  have hrf2 : ∀ c ∈ repo.toList, notSlash c = true := by
    intro c hc; simpa [notSlash] using hrf c hc
  have how2 : owner.toList ≠ [] := by
    intro h; exact how (congrArg String.mk h)
  have hrp2 : repo.toList ≠ [] := by
    intro h; exact hrp (congrArg String.mk h)
  have hd2 : ds.toList ≠ [] := by
    intro h; exact hd (congrArg String.mk h)
  have hsplit : ("https://github.com/" ++ owner ++ "/" ++ repo ++ "/pull/" ++ ds ++ rest).toList
      = githubLit ++ (owner.toList ++ slashChar ::
          (repo.toList ++ slashChar :: (pullLit ++ (ds.toList ++ rest.toList)))) := by
    show "https://github.com/".toList ++ owner.toList ++ "/".toList ++ repo.toList
        ++ "/pull/".toList ++ ds.toList ++ rest.toList = _
    have hs : "/".toList = [slashChar] := by decide
    have hp : "/pull/".toList = slashChar :: pullLit := by decide
    rw [hs, hp]
    simp [githubLit, List.append_assoc]
  rw [parse_pr_url, hsplit,
    parsePRUrlChars_append owner.toList repo.toList ds.toList rest.toList
      how2 hrp2 hof2 hrf2 hd2 hdd]
  rfl

/-- Witness for C10: `https://github.com/o/r/pull/123/files` parses with
`pr_number = "123"` despite the trailing path. -/
theorem parse_pr_url_matches_only_a_prefix_witness :
    parse_pr_url ("https://github.com/" ++ "o" ++ "/" ++ "r" ++ "/pull/" ++ "123" ++ "/files")
      = some ⟨"o", "r", String.mk (("123".toList ++ "/files".toList).takeWhile Char.isDigit)⟩ :=
  parse_pr_url_matches_only_a_prefix "o" "r" "123" "/files"
    (by decide) (by decide) (by decide) (by decide) (by decide) (by decide)

/- ### §9 Pipeline theorems -/

/-- Claim C2 counterexample: `https://gitlab.com/o/r/pull/1` matches the
claim's pattern `https://<host>/<owner>/<repo>/pull/<digits>`, yet
`_parse_pr_url` returns no `PRReference` for it — the code's pattern fixes the
host to `github.com`, so the claim's converse direction ("every string matching
that pattern parses") is false as stated. -/
theorem validation_gate_counterexample :
    matchesGenericPRPattern "https://gitlab.com/o/r/pull/1".toList = true ∧
    parse_pr_url "https://gitlab.com/o/r/pull/1" = none := by
  constructor <;> decide

/-- Claim C2 as amended (host fixed to `github.com`, as in the code's pattern;
the empty string is handled even earlier, as a missing URL): for every nonempty
input string present as the request URL, if the string does not prefix-match
`https://github.com/<owner>/<repo>/pull/<digits>` then parsing returns no
`PRReference`, the run's trace is exactly `[VALIDATING]` (no later stage runs)
and the diagnostic event is the only event; and if it does match, parsing
succeeds and the pipeline proceeds to FETCHING. -/
theorem validation_gate (st : SessionState) (o : Oracle) (url : String)
    (hurl : st.pull_request_url = some url) (hne : url ≠ "") :
    (matchesGithubPRPattern url.toList = false →
      parse_pr_url url = none ∧
      (run_async_impl st o).trace = [Stage.validating] ∧
      (run_async_impl st o).events = [invalidUrlMsg]) ∧
    (matchesGithubPRPattern url.toList = true →
      (parse_pr_url url).isSome = true ∧
      Stage.fetching ∈ (run_async_impl st o).trace) := by
  constructor
  · intro hm
    have hp : parse_pr_url url = none := by
      have h := parse_isSome_eq_matches url.toList
      rw [hm] at h
      rw [parse_pr_url]
      cases hcase : parsePRUrlChars url.toList with
      | none => rfl
      | some v => rw [hcase] at h; simp at h
    refine ⟨hp, ?_, ?_⟩ <;>
      · unfold run_async_impl
        rw [hurl]
        simp [hne, hp]
  · intro hm
    have hi : (parse_pr_url url).isSome = true := by
      rw [parse_pr_url, parse_isSome_eq_matches, hm]
    obtain ⟨pr, hp⟩ := Option.isSome_iff_exists.mp hi
    refine ⟨hi, ?_⟩
    unfold run_async_impl
    rw [hurl]
    simp [hne, hp]
    split_ifs <;> simp

/-- Witness for C2 (amended), failing side: a string with no `pull` segment
halts the run at VALIDATING with the diagnostic event. -/
theorem validation_gate_witness :
    parse_pr_url "notaurl" = none ∧
    (run_async_impl { pull_request_url := some "notaurl" } { }).trace = [Stage.validating] ∧
    (run_async_impl { pull_request_url := some "notaurl" } { }).events = [invalidUrlMsg] :=
  (validation_gate { pull_request_url := some "notaurl" } { } "notaurl" rfl
    (by decide)).1 (by decide)

/-- Claim C1 counterexample: a run whose FETCHING stage never writes
`pr_details` (the oracle writes nothing) does not return the claim's
`success:true` agent fallback; the payload's `success` field is `false`. -/
theorem total_failure_payload_counterexample :
    run_code_review_agent { pull_request_url := some "https://github.com/o/r/pull/1" } { }
      ≠ agentFallbackResult ∧
    (run_code_review_agent { pull_request_url := some "https://github.com/o/r/pull/1" } { }).success
      = false := by
  constructor <;> decide

/-- Claim C1 as amended: when the pipeline fails totally (a valid URL but the
FETCHING stage never writes its context key), the gate halts the run before
FINALIZING, no `final_result` is ever stored, and the payload returned to the
caller is the endpoint fallback of `run_code_review_agent`:
`success:false`, `error:"No result generated"`,
`review_summary:"Failed to complete review"`, empty `comments_added` and
`issues_found`, `approval_recommendation:"comment"`.  (The `success:true`
generic fallback of the claim belongs to `_generate_final_result` and is
produced only by runs that reach FINALIZING.) -/
theorem total_failure_payload (st : SessionState) (o : Oracle) (url : String)
    (hurl : st.pull_request_url = some url) (hne : url ≠ "")
    (hparse : (parse_pr_url url).isSome = true)
    (hpd : st.pr_details = none) (hfetch : o.fetchOut = none)
    (hfr : st.final_result = none) :
    run_code_review_agent st o = mainFallbackResult ∧
    mainFallbackResult.success = false ∧
    mainFallbackResult.error = some "No result generated" ∧
    mainFallbackResult.review_summary = "Failed to complete review" ∧
    mainFallbackResult.comments_added = [] ∧
    mainFallbackResult.issues_found = [] ∧
    mainFallbackResult.approval_recommendation = "comment" := by
  obtain ⟨pr, hp⟩ := Option.isSome_iff_exists.mp hparse
  refine ⟨?_, rfl, rfl, rfl, rfl, rfl, rfl⟩
  simp [run_code_review_agent, run_async_impl, hurl, hne, hp, hfetch, hpd, hfr, overrideKey]

/-- Witness for C1 (amended) at a concrete total-failure run. -/
theorem total_failure_payload_witness :
    run_code_review_agent { pull_request_url := some "https://github.com/o/r/pull/1" } { }
      = mainFallbackResult ∧
    mainFallbackResult.success = false ∧
    mainFallbackResult.error = some "No result generated" ∧
    mainFallbackResult.review_summary = "Failed to complete review" ∧
    mainFallbackResult.comments_added = [] ∧
    mainFallbackResult.issues_found = [] ∧
    mainFallbackResult.approval_recommendation = "comment" :=
  total_failure_payload { pull_request_url := some "https://github.com/o/r/pull/1" } { }
    "https://github.com/o/r/pull/1" rfl (by decide) (by decide) rfl rfl rfl

/-- Claim C7: in a run that reaches step 4 (URL parses; the FETCHING,
ANALYZING and GENERATING/STRUCTURING workers all wrote their keys), the
POSTING stage executes iff the request's `post_comments` flag is true, and the
posting outcome is never gated: whatever `o.postOut` is (including nothing
written at all), the run proceeds to FINALIZING, never fails, and the stored
final result is still the structured review result. -/
theorem posting_best_effort (st : SessionState) (o : Oracle) (url : String)
    (pr : PRReference) (d a w : String) (rr : ReviewResult)
    (hurl : st.pull_request_url = some url) (hne : url ≠ "")
    (hp : parse_pr_url url = some pr)
    (hf : o.fetchOut = some d) (ha : o.analyzeOut = some a) (hw : o.rawOut = some w)
    (hs : o.structuredOut = some rr) :
    (run_async_impl st o).trace =
      [Stage.validating, Stage.fetching, Stage.analyzing, Stage.generating]
        ++ (if st.post_comments then [Stage.posting] else []) ++ [Stage.finalizing] ∧
    (Stage.posting ∈ (run_async_impl st o).trace ↔ st.post_comments = true) ∧
    Stage.finalizing ∈ (run_async_impl st o).trace ∧
    (run_async_impl st o).state.final_result = some rr := by
  cases hpc : st.post_comments <;>
    simp [run_async_impl, hurl, hne, hp, hf, ha, hw, hs, hpc, overrideKey,
      generate_final_result]

/-- Witness for C7 at a concrete run with `post_comments = true` and a posting
worker that wrote nothing: POSTING is in the trace, the run still finalizes,
and the structured result is stored. -/
theorem posting_best_effort_witness :
    (Stage.posting ∈ (run_async_impl
        { pull_request_url := some "https://github.com/o/r/pull/1", post_comments := true }
        { fetchOut := some "d", analyzeOut := some "a", rawOut := some "w",
          structuredOut := some agentFallbackResult }).trace ↔
      ({ pull_request_url := some "https://github.com/o/r/pull/1", post_comments := true }
         : SessionState).post_comments = true) ∧
    Stage.finalizing ∈ (run_async_impl
        { pull_request_url := some "https://github.com/o/r/pull/1", post_comments := true }
        { fetchOut := some "d", analyzeOut := some "a", rawOut := some "w",
          structuredOut := some agentFallbackResult }).trace ∧
    (run_async_impl
        { pull_request_url := some "https://github.com/o/r/pull/1", post_comments := true }
        { fetchOut := some "d", analyzeOut := some "a", rawOut := some "w",
          structuredOut := some agentFallbackResult }).state.final_result
      = some agentFallbackResult :=
  (posting_best_effort
    { pull_request_url := some "https://github.com/o/r/pull/1", post_comments := true }
    { fetchOut := some "d", analyzeOut := some "a", rawOut := some "w",
      structuredOut := some agentFallbackResult }
    "https://github.com/o/r/pull/1" ⟨"o", "r", "1"⟩ "d" "a" "w" agentFallbackResult
    rfl (by decide) (by decide) rfl rfl rfl rfl).2
